import Mathlib

/-!
Verification development for the geojson repository (a Next.js app with one
HTTP route, src/app/api/trees/route.ts, and a Leaflet map client,
src/app/_components/trees.tsx).

The route handler GET is embedded as a pure function from the request query
parameters and the database to a structured response.  JavaScript numbers are
modelled as exact rationals together with the special values NaN and plus or
minus Infinity (float rounding is not modelled; none of the verified
properties depends on it).  The external collaborators are embedded from
their documented behavior:

* JS parseFloat / parseInt (ECMA-262 semantics on decimal strings,
  including the Infinity literal, prefix parsing, and the hex prefix of
  parseInt with no explicit radix);
* the PostGIS query in route.ts: WHERE "geometry" IS NOT NULL filters rows,
  the ORDER BY uses the geometry KNN operator, which for point geometries
  orders by the planar euclidean distance of the raw coordinates (modelled
  by the squared planar distance, a strictly monotone image of it), LIMIT
  truncates, and the selected distance_meters column is the geodesic
  geography distance, an external real-valued function that the embedding
  carries as an explicit parameter dM;
* node-postgres parameter passing: a NaN limit is serialized as text and
  rejected by the bigint input of LIMIT, a negative limit is rejected by
  LIMIT itself, and non-finite coordinates are rejected by the geography
  conversion; each rejection surfaces as a query error.
-/

/-- Kernel-evaluable addition on ℚ (the Batteries Rat.add behind + is
irreducible, which blocks decide; mkRat is not).  Proved equal to + below. -/
def ratAdd (a b : ℚ) : ℚ := mkRat (a.num * b.den + b.num * a.den) (a.den * b.den)

/-- Kernel-evaluable subtraction on ℚ.  Proved equal to - below. -/
def ratSub (a b : ℚ) : ℚ := mkRat (a.num * b.den - b.num * a.den) (a.den * b.den)

/-- Kernel-evaluable multiplication on ℚ.  Proved equal to * below. -/
def ratMul (a b : ℚ) : ℚ := mkRat (a.num * b.num) (a.den * b.den)

/-- Kernel-evaluable absolute value on ℚ. -/
def ratAbs (q : ℚ) : ℚ := if q.num < 0 then -q else q

/-- A JavaScript number: NaN, plus or minus Infinity, or a finite value
(modelled exactly as a rational). -/
inductive JSNum where
  | nan : JSNum
  | posInf : JSNum
  | negInf : JSNum
  | num : ℚ → JSNum
deriving DecidableEq

/-- The JS global isNaN applied to a number value. -/
def JSNum.isNaN : JSNum → Bool
  | JSNum.nan => true
  | _ => false

/-- Whitespace accepted before a numeric literal (the common StrWhiteSpace
characters; exotic Unicode space code points are not modelled). -/
def isWS (c : Char) : Bool :=
  c = ' ' ∨ c = '\t' ∨ c = '\n' ∨ c = '\r'

/-- Decimal digit test. -/
def isDigit (c : Char) : Bool :=
  ('0' ≤ c) ∧ (c ≤ '9')

/-- Hexadecimal digit test. -/
def isHexDigit (c : Char) : Bool :=
  isDigit c ∨ ('a' ≤ c ∧ c ≤ 'f') ∨ ('A' ≤ c ∧ c ≤ 'F')

/-- Numeric value of a decimal digit. -/
def digitVal (c : Char) : ℕ := c.toNat - '0'.toNat

/-- Numeric value of a hexadecimal digit. -/
def hexVal (c : Char) : ℕ :=
  if isDigit c then digitVal c
  else if ('a' ≤ c ∧ c ≤ 'f') then c.toNat - 'a'.toNat + 10
  else c.toNat - 'A'.toNat + 10

/-- Value of a list of decimal digits. -/
def digitsVal (l : List Char) : ℕ :=
  l.foldl (fun a c => 10 * a + digitVal c) 0

/-- Value of a list of hexadecimal digits. -/
def hexDigitsVal (l : List Char) : ℕ :=
  l.foldl (fun a c => 16 * a + hexVal c) 0

/-- Consume an optional sign; returns (negative?, rest). -/
def parseSignL : List Char → Bool × List Char
  | '-' :: t => (true, t)
  | '+' :: t => (false, t)
  | l => (false, l)

/-- Longest decimal-mantissa prefix: digits, optionally a dot and more
digits; at least one digit overall.  Returns the combined digit value, the
number of fractional digits, and the rest. -/
def parseMantissa (l : List Char) : Option (ℕ × ℕ × List Char) :=
  let p1 := l.span isDigit
  match p1.2 with
  | '.' :: r2 =>
      let p2 := r2.span isDigit
      if p1.1.isEmpty ∧ p2.1.isEmpty then none
      else some (digitsVal (p1.1 ++ p2.1), p2.1.length, p2.2)
  | _ => if p1.1.isEmpty then none else some (digitsVal p1.1, 0, p1.2)

/-- Optional exponent part after the mantissa: e or E, an optional sign and
digits.  When the digits are missing, the exponent marker is trailing
garbage and is ignored (JS parses the longest valid prefix). -/
def parseExpPart (l : List Char) : ℤ :=
  match l with
  | c :: r =>
      if c = 'e' ∨ c = 'E' then
        let sr := parseSignL r
        let ds := sr.2.takeWhile isDigit
        if ds.isEmpty then 0
        else if sr.1 then -(digitsVal ds : ℤ) else (digitsVal ds : ℤ)
      else 0
  | [] => 0

/-- Exact value of a decimal literal: sign, digit value m, number f of
fractional digits, exponent e; that is, the rational m / 10^f * 10^e.
Written with Nat powers and mkRat so that the kernel can evaluate it. -/
def decLiteralVal (neg : Bool) (m : ℕ) (f : ℕ) (e : ℤ) : ℚ :=
  let q : ℚ :=
    if (f : ℤ) ≤ e then mkRat ((m : ℤ) * ((10 ^ (e - (f : ℤ)).toNat : ℕ) : ℤ)) 1
    else mkRat (m : ℤ) (10 ^ (((f : ℤ) - e).toNat))
  if neg then -q else q

/-- JS parseFloat on an exploded string: skip whitespace, optional sign,
then either the Infinity literal or a decimal literal; NaN when no valid
prefix exists. -/
def parseFloatList (l : List Char) : JSNum :=
  let l1 := l.dropWhile isWS
  let sr := parseSignL l1
  if sr.2.take 8 = "Infinity".toList then
    if sr.1 then JSNum.negInf else JSNum.posInf
  else
    match parseMantissa sr.2 with
    | none => JSNum.nan
    | some mr => JSNum.num (decLiteralVal sr.1 mr.1 mr.2.1 (parseExpPart mr.2.2))

/-- JS parseFloat (route.ts lines 67 and 68 apply it to the lat and lng
query parameters). -/
def parseFloat (s : String) : JSNum := parseFloatList s.toList

/-- JS parseInt with no radix argument on an exploded string: skip
whitespace, optional sign, then a 0x or 0X prefix selects hexadecimal,
otherwise decimal digits; NaN when no digit follows. -/
def parseIntList (l : List Char) : JSNum :=
  let l1 := l.dropWhile isWS
  let sr := parseSignL l1
  match sr.2 with
  | '0' :: c :: rest =>
      if c = 'x' ∨ c = 'X' then
        let ds := rest.takeWhile isHexDigit
        if ds.isEmpty then JSNum.nan
        else JSNum.num (if sr.1 then -(hexDigitsVal ds : ℚ) else (hexDigitsVal ds : ℚ))
      else
        let ds := sr.2.takeWhile isDigit
        if ds.isEmpty then JSNum.nan
        else JSNum.num (if sr.1 then -(digitsVal ds : ℚ) else (digitsVal ds : ℚ))
  | _ =>
      let ds := sr.2.takeWhile isDigit
      if ds.isEmpty then JSNum.nan
      else JSNum.num (if sr.1 then -(digitsVal ds : ℚ) else (digitsVal ds : ℚ))

/-- JS parseInt (route.ts line 95 applies it to the limit string). -/
def parseInt (s : String) : JSNum := parseIntList s.toList

/-- A stored row of the trees_centroids table: "ID", "Boomsoort",
"Boomhoogte" and a nullable point geometry, held as (x, y) =
(longitude, latitude), the coordinate order of ST_Point. -/
structure StoredRow where
  id : String
  Boomsoort : String
  Boomhoogte : ℚ
  geometry : Option (ℚ × ℚ)
deriving DecidableEq

/-- A row produced by the SQL query of route.ts lines 78-93: the selected
columns id, "Boomsoort", "Boomhoogte", ST_X and ST_Y of the geometry, and
the geography distance to the query point in meters. -/
structure TreeRow where
  id : String
  Boomsoort : String
  Boomhoogte : ℚ
  longitude : ℚ
  latitude : ℚ
  distance_meters : ℚ
deriving DecidableEq

/-- Squared planar euclidean distance between two coordinate pairs, in the
raw coordinate units (degrees).  The SQL ORDER BY uses the geometry KNN
operator, whose value on two points is the planar euclidean distance of
their raw coordinates; ordering by its square is the same ordering. -/
def planarSq (p q : ℚ × ℚ) : ℚ :=
  ratAdd (ratMul (ratSub p.1 q.1) (ratSub p.1 q.1)) (ratMul (ratSub p.2 q.2) (ratSub p.2 q.2))

/-- The WHERE clause: rows whose geometry is not NULL, paired with their
geometry. -/
def validRows (table : List StoredRow) : List (StoredRow × (ℚ × ℚ)) :=
  table.filterMap (fun r => r.geometry.map (fun g => (r, g)))

/-- The SELECT list applied to one surviving row: project the columns and
annotate with the geography distance dM to the query point.  dM stands for
the external ST_Distance on geography values (geodesic meters); the
embedding carries it as a parameter. -/
def selectRow (dM : ℚ × ℚ → ℚ × ℚ → ℚ) (qpt : ℚ × ℚ) (rg : StoredRow × (ℚ × ℚ)) : TreeRow :=
  { id := rg.1.id
    Boomsoort := rg.1.Boomsoort
    Boomhoogte := rg.1.Boomhoogte
    longitude := rg.2.1
    latitude := rg.2.2
    distance_meters := dM rg.2 qpt }

/-- ORDER BY key of a selected row: squared planar distance of its
coordinates to the query point. -/
def rowKey (qpt : ℚ × ℚ) (t : TreeRow) : ℚ := planarSq (t.longitude, t.latitude) qpt

/-- Insert into a list sorted by the key, keeping it sorted. -/
def insertLE (key : TreeRow → ℚ) (a : TreeRow) : List TreeRow → List TreeRow
  | [] => [a]
  | b :: t => if key a ≤ key b then a :: b :: t else b :: insertLE key a t

/-- Insertion sort by a rational key (the ORDER BY). -/
def sortLE (key : TreeRow → ℚ) : List TreeRow → List TreeRow
  | [] => []
  | a :: t => insertLE key a (sortLE key t)

/-- The whole SQL query of route.ts lines 78-93: filter out NULL
geometries, select and annotate, order by the planar KNN operator, and
LIMIT to n rows. -/
def sqlQuery (dM : ℚ × ℚ → ℚ × ℚ → ℚ) (table : List StoredRow) (qpt : ℚ × ℚ) (n : ℕ) :
    List TreeRow :=
  (sortLE (rowKey qpt) ((validRows table).map (selectRow dM qpt))).take n

/-- The LIMIT parameter as received by the database.  node-postgres
serializes the JS number parseInt(limit) as text; the bigint input of
LIMIT rejects NaN and the infinities, and LIMIT itself rejects a negative
count, so those values make the query fail. -/
def pgLimit : JSNum → Except String ℕ
  | JSNum.num q =>
      if q.den = 1 then
        if q.num < 0 then Except.error "LIMIT must not be negative"
        else Except.ok q.num.toNat
      else Except.error "invalid input syntax for type bigint"
  | _ => Except.error "invalid input syntax for type bigint"

/-- pool.query of route.ts line 95, specialised to the SQL text of lines
78-93 over a given stored table: ST_SetSRID(ST_Point($2, $1), 4326) makes
the query point (x, y) = (lng, lat); non-finite coordinate parameters are
rejected by the geography conversion, and a bad LIMIT parameter is
rejected as above; otherwise the query returns the filtered, annotated,
ordered and truncated rows. -/
def pgPool (dM : ℚ × ℚ → ℚ × ℚ → ℚ) (table : List StoredRow)
    (la ln lim : JSNum) : Except String (List TreeRow) :=
  match la, ln with
  | JSNum.num a, JSNum.num b =>
      match pgLimit lim with
      | Except.ok n => Except.ok (sqlQuery dM table (b, a) n)
      | Except.error e => Except.error e
  | _, _ => Except.error "Coordinate values are out of range"

/-- A tree of the JSON response (route.ts lines 101-107): coordinates is
the pair [longitude, latitude] and distance is Math.round of the meters. -/
structure ApiTree where
  id : String
  boomsoort : String
  boomhoogte : ℚ
  coordinates : ℚ × ℚ
  distance : ℤ
deriving DecidableEq

/-- One half, written so that the kernel can evaluate it. -/
def half : ℚ := mkRat 1 2

/-- JS Math.round: floor(x + 1/2). -/
def jsRound (q : ℚ) : ℤ := (ratAdd q half).floor

/-- route.ts lines 101-107: map a query row to a response tree. -/
def toTree (row : TreeRow) : ApiTree :=
  { id := row.id
    boomsoort := row.Boomsoort
    boomhoogte := row.Boomhoogte
    coordinates := (row.longitude, row.latitude)
    distance := jsRound row.distance_meters }

/-- The JSON body of a response of GET: a 400 or 500 error body, the
no-results message body, or the success body with userLocation
(lat, lng as JS numbers), the trees array, and closest. -/
inductive Body where
  | errorBody : String → Body
  | messageBody : String → Body
  | successBody : JSNum × JSNum → List ApiTree → ApiTree → Body
deriving DecidableEq

/-- An HTTP response: status code plus JSON body (NextResponse.json with
no init defaults to status 200). -/
structure Response where
  status : ℕ
  body : Body
deriving DecidableEq

/-- The query parameters of a request as searchParams.get returns them:
absent parameters are none. -/
structure Request where
  lat : Option String
  lng : Option String
  limit : Option String

/-- JS falsiness of a searchParams.get result: null and the empty string
are falsy (route.ts line 60 tests !lat and !lng). -/
def jsFalsy : Option String → Bool
  | none => true
  | some s => s == ""

/-- route.ts line 58: searchParams.get('limit') || '1'. -/
def orDefault (o : Option String) (d : String) : String :=
  match o with
  | none => d
  | some s => if s == "" then d else s

/-- The GET handler of route.ts lines 53-123, parameterised over the
database call (pool.query applied to the fixed SQL text): validate the
presence of lat and lng, parse them and reject NaN, run the query with
parseInt(limit), answer 500 on a query error, the no-results message on an
empty row set, and otherwise the success body whose trees are the mapped
rows and whose closest is trees[0].  The source binds the parsed values
once; they are inlined here. -/
def GET (pool : JSNum → JSNum → JSNum → Except String (List TreeRow)) (req : Request) :
    Response :=
  if jsFalsy req.lat || jsFalsy req.lng then
    ⟨400, Body.errorBody "Latitude and longitude are required"⟩
  else if (parseFloat (req.lat.getD "")).isNaN || (parseFloat (req.lng.getD "")).isNaN then
    ⟨400, Body.errorBody "Invalid latitude or longitude"⟩
  else
    match pool (parseFloat (req.lat.getD "")) (parseFloat (req.lng.getD ""))
        (parseInt (orDefault req.limit "1")) with
    | Except.error _ => ⟨500, Body.errorBody "Internal server error"⟩
    | Except.ok [] => ⟨200, Body.messageBody "No trees found"⟩
    | Except.ok (r0 :: rest) =>
        ⟨200, Body.successBody (parseFloat (req.lat.getD ""), parseFloat (req.lng.getD ""))
          ((r0 :: rest).map toTree) (toTree r0)⟩

/-- The distance list of a response: the distance fields of the trees array
of a success body, and empty otherwise. -/
def respDistances (r : Response) : List ℤ :=
  match r.body with
  | Body.successBody _ ts _ => ts.map (fun t => t.distance)
  | _ => []

/-- A geolocation failure kind, as the PositionError codes distinguish
them. -/
inductive GeoError where
  | permissionDenied : GeoError
  | positionUnavailable : GeoError
  | timeout : GeoError
deriving DecidableEq

/-- The client page state of trees.tsx: location, trees, loading, error. -/
structure ClientState where
  location : Option (ℚ × ℚ)
  trees : List ApiTree
  loading : Bool
  error : Option String
deriving DecidableEq

/-- The initial client state (useState initialisers of trees.tsx). -/
def initialState : ClientState :=
  { location := none, trees := [], loading := false, error := none }

/-- The synchronous head of findTrees (both client drafts): setLoading(true)
and setError(null). -/
def findTreesStart (s : ClientState) : ClientState :=
  { s with loading := true, error := none }

/-- The error callback passed to getCurrentPosition by findTrees, identical
in both client drafts (trees.tsx lines 151-154 and 327-330): it ignores
the failure kind entirely, sets the single message and clears loading. -/
def geoErrorCallback (s : ClientState) (_e : GeoError) : ClientState :=
  { s with error := some "Location access denied", loading := false }

/-- A findTrees run whose geolocation request fails with the given kind:
the synchronous head followed by the error callback. -/
def findTreesOnGeoError (s : ClientState) (e : GeoError) : ClientState :=
  geoErrorCallback (findTreesStart s) e

/-- A concrete stand-in for the geography distance at latitude 52: an
equirectangular approximation in meters, about 68500 m per degree of
longitude (111320 times cos 52) and 111000 m per degree of latitude.  At
the sample points below its ordering agrees with the true geodesic
ordering, which is what the counterexample needs. -/
def dMex (p q : ℚ × ℚ) : ℚ :=
  ratAdd (ratMul (mkRat 68500 1) (ratAbs (ratSub p.1 q.1)))
    (ratMul (mkRat 111000 1) (ratAbs (ratSub p.2 q.2)))

/-- A two-row stored table: tree A lies 0.01 degrees east of the query
point used below (about 685 m geodesically), tree B lies 0.009 degrees
north of it (about 1000 m geodesically).  B is planar-closer, A is
geodesically closer. -/
def tableEx : List StoredRow :=
  [ { id := "A", Boomsoort := "Eik", Boomhoogte := mkRat 10 1,
      geometry := some (mkRat 491 100, mkRat 52 1) },
    { id := "B", Boomsoort := "Linde", Boomhoogte := mkRat 12 1,
      geometry := some (mkRat 49 10, mkRat 52009 1000) } ]

/-- Query at lat 52, lng 4.9 with limit 2. -/
def reqA : Request := { lat := some "52", lng := some "4.9", limit := some "2" }

/-- The response tree for row B. -/
def treeB : ApiTree :=
  { id := "B", boomsoort := "Linde", boomhoogte := mkRat 12 1,
    coordinates := (mkRat 49 10, mkRat 52009 1000), distance := 999 }

/-- The response tree for row A. -/
def treeA : ApiTree :=
  { id := "A", boomsoort := "Eik", boomhoogte := mkRat 10 1,
    coordinates := (mkRat 491 100, mkRat 52 1), distance := 685 }

/-- A pool call that fails like a lost database connection. -/
def poolErr : JSNum → JSNum → JSNum → Except String (List TreeRow) :=
  fun _ _ _ => Except.error "connection terminated unexpectedly"

/-- A constant nonnegative geography distance, used to instantiate
theorems that assume distances are nonnegative. -/
def dMconst : ℚ × ℚ → ℚ × ℚ → ℚ := fun _ _ => mkRat 7 2

example : parseFloat "52.37" = JSNum.num (mkRat 5237 100) := by decide
example : parseFloat "abc" = JSNum.nan := by decide
example : parseFloat "" = JSNum.nan := by decide
example : parseFloat "Infinity" = JSNum.posInf := by decide
example : parseFloat "-Infinity" = JSNum.negInf := by decide
example : parseFloat "  -2.5e2" = JSNum.num (-250) := by decide
example : parseFloat "1e" = JSNum.num 1 := by decide
example : parseFloat "0x10" = JSNum.num 0 := by decide
example : parseFloat ".5" = JSNum.num (mkRat 1 2) := by decide
example : parseInt "1" = JSNum.num 1 := by decide
example : parseInt "abc" = JSNum.nan := by decide
example : parseInt "0x10" = JSNum.num 16 := by decide
example : parseInt "2.9" = JSNum.num 2 := by decide
example : parseInt "-7" = JSNum.num (-7) := by decide
example : parseInt "Infinity" = JSNum.nan := by decide

example :
    GET (pgPool dMex tableEx) reqA =
      ⟨200, Body.successBody (JSNum.num (mkRat 52 1), JSNum.num (mkRat 49 10))
        [treeB, treeA] treeB⟩ := by decide

theorem ratAdd_eq (a b : ℚ) : ratAdd a b = a + b := by
  rw [ratAdd, Rat.mkRat_eq_divInt]
  conv_rhs => rw [← Rat.num_divInt_den a, ← Rat.num_divInt_den b]
  rw [Rat.divInt_add_divInt _ _ (Int.natCast_ne_zero.mpr a.den_nz)
    (Int.natCast_ne_zero.mpr b.den_nz)]
  push_cast
  rfl

theorem ratSub_eq (a b : ℚ) : ratSub a b = a - b := by
  rw [ratSub, Rat.mkRat_eq_divInt]
  conv_rhs => rw [← Rat.num_divInt_den a, ← Rat.num_divInt_den b]
  rw [Rat.divInt_sub_divInt _ _ (Int.natCast_ne_zero.mpr a.den_nz)
    (Int.natCast_ne_zero.mpr b.den_nz)]
  push_cast
  rfl

theorem ratMul_eq (a b : ℚ) : ratMul a b = a * b := by
  rw [ratMul, Rat.mkRat_eq_divInt]
  conv_rhs => rw [← Rat.num_divInt_den a, ← Rat.num_divInt_den b]
  rw [Rat.divInt_mul_divInt' a.num (a.den : ℤ) b.num (b.den : ℤ)]
  push_cast
  rfl

theorem ratAbs_eq (q : ℚ) : ratAbs q = |q| := by
  rw [ratAbs]
  rcases lt_or_le q.num 0 with h | h
  · rw [if_pos h, abs_of_neg]
    exact Rat.num_neg.mp h
  · rw [if_neg (not_lt.mpr h), abs_of_nonneg]
    exact Rat.num_nonneg.mp h

theorem mem_insertLE (key : TreeRow → ℚ) (a x : TreeRow) (l : List TreeRow) :
    x ∈ insertLE key a l ↔ x = a ∨ x ∈ l := by
  induction l with
  | nil => simp [insertLE]
  | cons b t ih =>
    simp only [insertLE]
    split
    · simp [List.mem_cons]
    · simp only [List.mem_cons, ih]
      tauto

theorem mem_sortLE (key : TreeRow → ℚ) (x : TreeRow) (l : List TreeRow) :
    x ∈ sortLE key l ↔ x ∈ l := by
  induction l with
  | nil => simp [sortLE]
  | cons b t ih =>
    simp only [sortLE, mem_insertLE, List.mem_cons, ih]

theorem length_insertLE (key : TreeRow → ℚ) (a : TreeRow) (l : List TreeRow) :
    (insertLE key a l).length = l.length + 1 := by
  induction l with
  | nil => rfl
  | cons b t ih =>
    simp only [insertLE]
    split
    · simp
    · simp [ih]

theorem length_sortLE (key : TreeRow → ℚ) (l : List TreeRow) :
    (sortLE key l).length = l.length := by
  induction l with
  | nil => rfl
  | cons b t ih =>
    simp only [sortLE, length_insertLE, ih, List.length_cons]

theorem pairwise_insertLE (key : TreeRow → ℚ) (a : TreeRow) (l : List TreeRow)
    (h : l.Pairwise (fun x y => key x ≤ key y)) :
    (insertLE key a l).Pairwise (fun x y => key x ≤ key y) := by
  induction l with
  | nil => simp [insertLE]
  | cons b t ih =>
    rw [List.pairwise_cons] at h
    obtain ⟨hb, ht⟩ := h
    simp only [insertLE]
    split
    · next hab =>
      rw [List.pairwise_cons]
      refine ⟨?_, ?_⟩
      · intro x hx
        rcases List.mem_cons.mp hx with hx | hx
        · exact hx ▸ hab
        · exact le_trans hab (hb x hx)
      · rw [List.pairwise_cons]
        exact ⟨hb, ht⟩
    · next hab =>
      rw [List.pairwise_cons]
      refine ⟨?_, ih ht⟩
      intro x hx
      rcases (mem_insertLE key a x t).mp hx with rfl | hx
      · exact le_of_not_le hab
      · exact hb x hx

theorem pairwise_sortLE (key : TreeRow → ℚ) (l : List TreeRow) :
    (sortLE key l).Pairwise (fun x y => key x ≤ key y) := by
  induction l with
  | nil => simp [sortLE]
  | cons b t ih => exact pairwise_insertLE key b (sortLE key t) ih

theorem length_sqlQuery (dM : ℚ × ℚ → ℚ × ℚ → ℚ) (table : List StoredRow)
    (qpt : ℚ × ℚ) (n : ℕ) :
    (sqlQuery dM table qpt n).length = min n (validRows table).length := by
  rw [sqlQuery, List.length_take, length_sortLE, List.length_map]

theorem pairwise_sqlQuery (dM : ℚ × ℚ → ℚ × ℚ → ℚ) (table : List StoredRow)
    (qpt : ℚ × ℚ) (n : ℕ) :
    (sqlQuery dM table qpt n).Pairwise (fun x y => rowKey qpt x ≤ rowKey qpt y) :=
  (pairwise_sortLE (rowKey qpt) _).sublist (List.take_sublist n _)

theorem mem_sqlQuery_origin (dM : ℚ × ℚ → ℚ × ℚ → ℚ) (table : List StoredRow)
    (qpt : ℚ × ℚ) (n : ℕ) (t : TreeRow) (ht : t ∈ sqlQuery dM table qpt n) :
    ∃ r ∈ table, ∃ g, r.geometry = some g ∧ t = selectRow dM qpt (r, g) := by
  have h1 := List.take_subset n _ ht
  rw [mem_sortLE] at h1
  rcases List.mem_map.mp h1 with ⟨rg, hrg, rfl⟩
  rcases List.mem_filterMap.mp hrg with ⟨r, hr, hmap⟩
  cases hg : r.geometry with
  | none => rw [hg] at hmap; cases hmap
  | some g =>
    rw [hg] at hmap
    simp only [Option.map_some', Option.some.injEq] at hmap
    exact ⟨r, hr, g, hg, by rw [← hmap]⟩

theorem jsFalsy_eq_false_of_num (o : Option String) (q : ℚ)
    (h : parseFloat (o.getD "") = JSNum.num q) : jsFalsy o = false := by
  cases o with
  | none =>
    rw [Option.getD_none] at h
    cases h
  | some s =>
    cases hs : s == "" with
    | true =>
      rw [eq_of_beq hs] at h
      cases h
    | false =>
      simp [jsFalsy, hs]

theorem jsRound_nonneg (q : ℚ) (h : 0 ≤ q) : 0 ≤ jsRound q := by
  rw [jsRound]
  refine Rat.le_floor.mpr ?_
  rw [ratAdd_eq]
  have hh : (0 : ℚ) < half := by decide
  push_cast
  linarith

theorem GET_pgPool_eq (dM : ℚ × ℚ → ℚ × ℚ → ℚ) (table : List StoredRow) (req : Request)
    (la ln : ℚ) (n : ℕ)
    (hla : parseFloat (req.lat.getD "") = JSNum.num la)
    (hln : parseFloat (req.lng.getD "") = JSNum.num ln)
    (hlim : pgLimit (parseInt (orDefault req.limit "1")) = Except.ok n) :
    GET (pgPool dM table) req =
      match sqlQuery dM table (ln, la) n with
      | [] => ⟨200, Body.messageBody "No trees found"⟩
      | r0 :: rest =>
          ⟨200, Body.successBody (JSNum.num la, JSNum.num ln)
            ((r0 :: rest).map toTree) (toTree r0)⟩ := by
  have hfa := jsFalsy_eq_false_of_num req.lat la hla
  have hfb := jsFalsy_eq_false_of_num req.lng ln hln
  have hpool : pgPool dM table (JSNum.num la) (JSNum.num ln)
      (parseInt (orDefault req.limit "1")) = Except.ok (sqlQuery dM table (ln, la) n) := by
    unfold pgPool
    rw [hlim]
  unfold GET
  rw [hfa, hfb, hla, hln]
  simp only [Bool.or_self, Bool.false_eq_true, if_false, JSNum.isNaN]
  rw [hpool]
  cases sqlQuery dM table (ln, la) n <;> rfl

/-- C4 (amended): the geolocation error callback of findTrees ignores the
failure kind: permission denial, position unavailability and timeout all
produce the one message "Location access denied", and every failure leaves
the loading state false. -/
theorem findTrees_geoError_uniform (s : ClientState) (e : GeoError) :
    (findTreesOnGeoError s e).error = some "Location access denied" ∧
    (findTreesOnGeoError s e).loading = false :=
  ⟨rfl, rfl⟩

/-- C4 counterexample: a geolocation timeout does not produce the message
"Location request timed out."; it produces the same message as a
permission denial, so the kinds are not distinguished (loading is left
false, as claimed). -/
theorem findTrees_timeout_message_not_distinct :
    (findTreesOnGeoError initialState GeoError.timeout).error ≠
      some "Location request timed out." ∧
    (findTreesOnGeoError initialState GeoError.timeout).error =
      (findTreesOnGeoError initialState GeoError.permissionDenied).error ∧
    (findTreesOnGeoError initialState GeoError.timeout).loading = false := by
  refine ⟨?_, rfl, rfl⟩
  decide

/-- C10: a lat or lng parameter that is present but equal to the empty
string is treated like an absent one: GET answers 400 with the error
"Latitude and longitude are required", before any number parsing. -/
theorem GET_emptyParam_required (pool : JSNum → JSNum → JSNum → Except String (List TreeRow))
    (req : Request) (h : req.lat = some "" ∨ req.lng = some "") :
    GET pool req = ⟨400, Body.errorBody "Latitude and longitude are required"⟩ := by
  unfold GET
  rcases h with h | h <;> rw [h] <;> simp [jsFalsy]

/-- C10 witness: an empty lat with a well-formed lng still answers the
requiredness 400. -/
theorem GET_emptyParam_required_witness :
    GET (pgPool dMex tableEx) { lat := some "", lng := some "4.9", limit := none } =
      ⟨400, Body.errorBody "Latitude and longitude are required"⟩ :=
  GET_emptyParam_required (pgPool dMex tableEx) _ (Or.inl rfl)

/-- C8: any failing database call is caught and masked: whatever the error
detail e is, GET answers 500 with exactly the generic body
"Internal server error"; the detail does not appear in the response. -/
theorem GET_dbError_masked (pool : JSNum → JSNum → JSNum → Except String (List TreeRow))
    (req : Request) (la ln : ℚ) (e : String)
    (hla : parseFloat (req.lat.getD "") = JSNum.num la)
    (hln : parseFloat (req.lng.getD "") = JSNum.num ln)
    (herr : pool (JSNum.num la) (JSNum.num ln) (parseInt (orDefault req.limit "1")) =
      Except.error e) :
    GET pool req = ⟨500, Body.errorBody "Internal server error"⟩ := by
  have hfa := jsFalsy_eq_false_of_num req.lat la hla
  have hfb := jsFalsy_eq_false_of_num req.lng ln hln
  unfold GET
  rw [hfa, hfb, hla, hln]
  simp only [Bool.or_self, Bool.false_eq_true, if_false, JSNum.isNaN]
  rw [herr]

/-- C8 witness: a dropped connection during a valid query is answered with
the generic 500. -/
theorem GET_dbError_masked_witness :
    GET poolErr { lat := some "52", lng := some "4.9", limit := none } =
      ⟨500, Body.errorBody "Internal server error"⟩ :=
  GET_dbError_masked poolErr _ (mkRat 52 1) (mkRat 49 10)
    "connection terminated unexpectedly" (by decide) (by decide) rfl

/-- C3: a malformed limit is not defensively parsed: with valid coordinates
and limit "abc", parseInt yields NaN, the database rejects it as a LIMIT
parameter, and GET answers the generic 500 instead of falling back to a
default. -/
theorem GET_malformed_limit_500 :
    GET (pgPool dMex tableEx)
        { lat := some "52.37", lng := some "4.9", limit := some "abc" } =
      ⟨500, Body.errorBody "Internal server error"⟩ := by
  decide

/-- C7: a valid query whose result set is empty is answered 200 with the
message body "No trees found": no trees field and no error status. -/
theorem GET_empty_result_message (dM : ℚ × ℚ → ℚ × ℚ → ℚ) (table : List StoredRow)
    (req : Request) (la ln : ℚ) (n : ℕ)
    (hla : parseFloat (req.lat.getD "") = JSNum.num la)
    (hln : parseFloat (req.lng.getD "") = JSNum.num ln)
    (hlim : pgLimit (parseInt (orDefault req.limit "1")) = Except.ok n)
    (hempty : sqlQuery dM table (ln, la) n = []) :
    GET (pgPool dM table) req = ⟨200, Body.messageBody "No trees found"⟩ := by
  rw [GET_pgPool_eq dM table req la ln n hla hln hlim, hempty]

/-- C7 witness: a valid query against an empty table gets the no-results
200 message. -/
theorem GET_empty_result_message_witness :
    GET (pgPool dMex []) { lat := some "52", lng := some "4.9", limit := none } =
      ⟨200, Body.messageBody "No trees found"⟩ :=
  GET_empty_result_message dMex [] _ (mkRat 52 1) (mkRat 49 10) 1
    (by decide) (by decide) rfl (by decide)

/-- C6: when the limit parameter is omitted it defaults to 1: whenever at
least one row with non-NULL geometry exists, the success response holds
exactly one tree, which is also the closest. -/
theorem GET_default_limit_one (dM : ℚ × ℚ → ℚ × ℚ → ℚ) (table : List StoredRow)
    (req : Request) (la ln : ℚ)
    (hlimNone : req.limit = none)
    (hla : parseFloat (req.lat.getD "") = JSNum.num la)
    (hln : parseFloat (req.lng.getD "") = JSNum.num ln)
    (hne : validRows table ≠ []) :
    ∃ t0, GET (pgPool dM table) req =
      ⟨200, Body.successBody (JSNum.num la, JSNum.num ln) [t0] t0⟩ := by
  have hlim : pgLimit (parseInt (orDefault req.limit "1")) = Except.ok 1 := by
    rw [hlimNone]
    rfl
  have hmaster := GET_pgPool_eq dM table req la ln 1 hla hln hlim
  have hlen : (sqlQuery dM table (ln, la) 1).length = 1 := by
    rw [length_sqlQuery]
    have hpos : 0 < (validRows table).length := List.length_pos.mpr hne
    omega
  cases hq : sqlQuery dM table (ln, la) 1 with
  | nil =>
    rw [hq] at hlen
    cases hlen
  | cons r0 rest =>
    rw [hq] at hlen hmaster
    have hrest : rest = [] := by
      rw [List.length_cons] at hlen
      exact List.eq_nil_of_length_eq_zero (by omega)
    subst hrest
    exact ⟨toTree r0, hmaster⟩

/-- C6 witness: querying the two-row table with no limit parameter returns
exactly one tree. -/
theorem GET_default_limit_one_witness :
    ∃ t0, GET (pgPool dMex tableEx) { lat := some "52", lng := some "4.9", limit := none } =
      ⟨200, Body.successBody (JSNum.num (mkRat 52 1), JSNum.num (mkRat 49 10)) [t0] t0⟩ :=
  GET_default_limit_one dMex tableEx _ (mkRat 52 1) (mkRat 49 10) rfl
    (by decide) (by decide) (by decide)

/-- C1 (amended): for a valid query with a non-empty result, the trees
array is sorted by non-decreasing planar coordinate distance to the query
point (the ORDER BY key of the SQL, the geometry KNN operator) and the
closest field is the first element of the array.  Sortedness in the
reported geodesic distance field does not follow from the code and can
fail; see the counterexample. -/
theorem GET_trees_sorted_by_planar_key (dM : ℚ × ℚ → ℚ × ℚ → ℚ) (table : List StoredRow)
    (req : Request) (la ln : ℚ) (n : ℕ)
    (hla : parseFloat (req.lat.getD "") = JSNum.num la)
    (hln : parseFloat (req.lng.getD "") = JSNum.num ln)
    (hlim : pgLimit (parseInt (orDefault req.limit "1")) = Except.ok n)
    (hne : sqlQuery dM table (ln, la) n ≠ []) :
    ∃ trees t0,
      GET (pgPool dM table) req =
        ⟨200, Body.successBody (JSNum.num la, JSNum.num ln) trees t0⟩ ∧
      trees.head? = some t0 ∧
      trees.Pairwise (fun t1 t2 =>
        planarSq t1.coordinates (ln, la) ≤ planarSq t2.coordinates (ln, la)) := by
  have hmaster := GET_pgPool_eq dM table req la ln n hla hln hlim
  cases hq : sqlQuery dM table (ln, la) n with
  | nil => exact absurd hq hne
  | cons r0 rest =>
    rw [hq] at hmaster
    refine ⟨(r0 :: rest).map toTree, toTree r0, hmaster, rfl, ?_⟩
    have hp := pairwise_sqlQuery dM table (ln, la) n
    rw [hq] at hp
    rw [List.pairwise_map]
    refine hp.imp ?_
    intro a b hab
    simpa [toTree, rowKey] using hab

/-- C1 witness: the two-row query above yields a success response whose
trees are sorted by the planar key with closest equal to the head. -/
theorem GET_trees_sorted_by_planar_key_witness :
    ∃ trees t0,
      GET (pgPool dMex tableEx) reqA =
        ⟨200, Body.successBody (JSNum.num (mkRat 52 1), JSNum.num (mkRat 49 10)) trees t0⟩ ∧
      trees.head? = some t0 ∧
      trees.Pairwise (fun t1 t2 =>
        planarSq t1.coordinates (mkRat 49 10, mkRat 52 1) ≤
          planarSq t2.coordinates (mkRat 49 10, mkRat 52 1)) :=
  GET_trees_sorted_by_planar_key dMex tableEx reqA (mkRat 52 1) (mkRat 49 10) 2
    (by decide) (by decide) rfl (by decide)

/-- C1 counterexample: at the concrete table and query above, GET returns
trees with distance fields [999, 685], which is not non-decreasing.  The
ORDER BY uses the planar KNN operator on the raw coordinates while the
distance field holds geodesic meters (modelled at these latitude-52 points
by the equirectangular dMex), and the two orderings disagree: tree B is
planar-closer but geodesically farther than tree A. -/
theorem GET_distances_not_nondecreasing :
    respDistances (GET (pgPool dMex tableEx) reqA) = [999, 685] ∧
    ¬ List.Chain' (fun a b => a ≤ b) (respDistances (GET (pgPool dMex tableEx) reqA)) := by
  have h1 : respDistances (GET (pgPool dMex tableEx) reqA) = [999, 685] := by decide
  refine ⟨h1, ?_⟩
  rw [h1]
  intro hch
  rw [List.chain'_cons] at hch
  exact absurd hch.1 (by decide)

/-- C5: a valid query with a non-empty result is answered 200 with the
success shape: userLocation is the parsed pair, closest is the head of the
trees array, the array holds at most limit trees (exactly limit when at
least limit rows with geometry exist), and every tree carries the id,
species, height and geometry coordinates (longitude first) of a stored
row together with a nonnegative integer distance, Math.round of its
geography meters. -/
theorem GET_success_shape (dM : ℚ × ℚ → ℚ × ℚ → ℚ) (table : List StoredRow)
    (req : Request) (la ln : ℚ) (n : ℕ)
    (hd : ∀ p q, 0 ≤ dM p q)
    (hla : parseFloat (req.lat.getD "") = JSNum.num la)
    (hln : parseFloat (req.lng.getD "") = JSNum.num ln)
    (hlim : pgLimit (parseInt (orDefault req.limit "1")) = Except.ok n)
    (hne : sqlQuery dM table (ln, la) n ≠ []) :
    ∃ trees t0,
      GET (pgPool dM table) req =
        ⟨200, Body.successBody (JSNum.num la, JSNum.num ln) trees t0⟩ ∧
      trees.head? = some t0 ∧
      trees.length ≤ n ∧
      (n ≤ (validRows table).length → trees.length = n) ∧
      ∀ t ∈ trees, 0 ≤ t.distance ∧
        ∃ r ∈ table, r.geometry = some t.coordinates ∧ t.id = r.id ∧
          t.boomsoort = r.Boomsoort ∧ t.boomhoogte = r.Boomhoogte ∧
          t.distance = jsRound (dM t.coordinates (ln, la)) := by
  have hmaster := GET_pgPool_eq dM table req la ln n hla hln hlim
  have hlen := length_sqlQuery dM table (ln, la) n
  cases hq : sqlQuery dM table (ln, la) n with
  | nil => exact absurd hq hne
  | cons r0 rest =>
    rw [hq] at hmaster hlen
    refine ⟨(r0 :: rest).map toTree, toTree r0, hmaster, rfl, ?_, ?_, ?_⟩
    · rw [List.length_map, hlen]
      exact min_le_left _ _
    · intro hn
      rw [List.length_map, hlen]
      exact min_eq_left hn
    · intro t htmem
      rcases List.mem_map.mp htmem with ⟨row, hrow, rfl⟩
      rw [← hq] at hrow
      rcases mem_sqlQuery_origin dM table (ln, la) n row hrow with ⟨r, hr, g, hg, rfl⟩
      exact ⟨jsRound_nonneg _ (hd _ _), r, hr, hg, rfl, rfl, rfl, rfl⟩

/-- C5 witness: the two-row query with a constant geography distance. -/
theorem GET_success_shape_witness :
    ∃ trees t0,
      GET (pgPool dMconst tableEx) reqA =
        ⟨200, Body.successBody (JSNum.num (mkRat 52 1), JSNum.num (mkRat 49 10)) trees t0⟩ ∧
      trees.head? = some t0 ∧
      trees.length ≤ 2 ∧
      (2 ≤ (validRows tableEx).length → trees.length = 2) ∧
      ∀ t ∈ trees, 0 ≤ t.distance ∧
        ∃ r ∈ tableEx, r.geometry = some t.coordinates ∧ t.id = r.id ∧
          t.boomsoort = r.Boomsoort ∧ t.boomhoogte = r.Boomhoogte ∧
          t.distance = jsRound (dMconst t.coordinates (mkRat 49 10, mkRat 52 1)) :=
  GET_success_shape dMconst tableEx reqA (mkRat 52 1) (mkRat 49 10) 2
    (fun p q => show (0 : ℚ) ≤ mkRat 7 2 by decide) (by decide) (by decide) rfl (by decide)

/-- C2 (amended): GET answers 400, with an error body, exactly when lat or
lng is absent or empty (JS-falsy), or parseFloat of one of them is NaN.  A
parameter such as "Infinity" does not parse as a finite number, yet it is
not NaN, so it passes validation and produces no 400. -/
theorem GET_400_iff (pool : JSNum → JSNum → JSNum → Except String (List TreeRow))
    (req : Request) :
    (∃ s, GET pool req = ⟨400, Body.errorBody s⟩) ↔
      (jsFalsy req.lat = true ∨ jsFalsy req.lng = true ∨
        (parseFloat (req.lat.getD "")).isNaN = true ∨
        (parseFloat (req.lng.getD "")).isNaN = true) := by
  unfold GET
  cases hfa : jsFalsy req.lat with
  | true => simp [hfa]
  | false =>
    cases hfb : jsFalsy req.lng with
    | true => simp [hfa, hfb]
    | false =>
      cases hna : (parseFloat (req.lat.getD "")).isNaN with
      | true => simp [hfa, hfb, hna]
      | false =>
        cases hnb : (parseFloat (req.lng.getD "")).isNaN with
        | true => simp [hfa, hfb, hna, hnb]
        | false =>
          simp only [hfa, hfb, hna, hnb, Bool.or_self, Bool.false_eq_true, if_false,
            or_self, iff_false]
          rintro ⟨s, hs⟩
          rcases hres : pool (parseFloat (req.lat.getD "")) (parseFloat (req.lng.getD ""))
              (parseInt (orDefault req.limit "1")) with e | rows
          · rw [hres] at hs
            simp at hs
          · rw [hres] at hs
            cases rows with
            | nil => simp at hs
            | cons r0 rest => simp at hs

/-- C2 counterexample: lat "Infinity" does not parse as a finite number
(it parses to positive Infinity), yet GET does not answer 400: the value
passes the NaN check and reaches the database call, whose rejection of the
non-finite coordinate yields the generic 500 instead. -/
theorem GET_infinity_not_400 :
    GET (pgPool dMex tableEx) { lat := some "Infinity", lng := some "4.9", limit := none } =
      ⟨500, Body.errorBody "Internal server error"⟩ ∧
    parseFloat "Infinity" = JSNum.posInf :=
  ⟨by decide, by decide⟩

/-- C9: every tree of a success response of GET over the embedded query,
and in particular the closest one, originates from a stored row whose
geometry is non-NULL and equals its coordinates: rows with NULL geometry
are filtered out by the WHERE clause and can never appear. -/
theorem GET_success_rows_nonNull (dM : ℚ × ℚ → ℚ × ℚ → ℚ) (table : List StoredRow)
    (req : Request) (uloc : JSNum × JSNum) (trees : List ApiTree) (t0 : ApiTree)
    (hresp : GET (pgPool dM table) req = ⟨200, Body.successBody uloc trees t0⟩) :
    t0 ∈ trees ∧ ∀ t ∈ trees, ∃ r ∈ table, r.geometry = some t.coordinates := by
  unfold GET at hresp
  split at hresp
  · simp at hresp
  · split at hresp
    · simp at hresp
    · split at hresp
      · simp at hresp
      · simp at hresp
      · next r0 rest heq =>
        have hb := congrArg Response.body hresp
        rw [Body.successBody.injEq] at hb
        obtain ⟨hu, ht, h0⟩ := hb
        subst ht h0
        unfold pgPool at heq
        split at heq
        · split at heq
          · injection heq with hq
            constructor
            · exact List.mem_map_of_mem toTree (List.mem_cons_self r0 rest)
            · intro t htmem
              rcases List.mem_map.mp htmem with ⟨row, hrow, rfl⟩
              rw [← hq] at hrow
              rcases mem_sqlQuery_origin _ _ _ _ row hrow with ⟨r, hr, g, hg, rfl⟩
              exact ⟨r, hr, hg⟩
          · cases heq
        · cases heq

/-- C9 witness: the concrete success response of the two-row query; both
returned trees, including the closest, carry the geometry of a stored
row. -/
theorem GET_success_rows_nonNull_witness :
    treeB ∈ [treeB, treeA] ∧
    ∀ t ∈ [treeB, treeA], ∃ r ∈ tableEx, r.geometry = some t.coordinates :=
  GET_success_rows_nonNull dMex tableEx reqA
    (JSNum.num (mkRat 52 1), JSNum.num (mkRat 49 10)) [treeB, treeA] treeB (by decide)
